import Mathlib

/-!
Shallow embedding of `src/code/sec_1b.py`, the exploratory-analysis script of
this repository.  A pandas `DataFrame` of pixel observations is modelled as a
`List Row`; the three analysis functions `label_stats`, `feature_plot` and
`label_plot` are translated into pure Lean functions that build the printed
report lines and the chart descriptions the script hands to the renderer.
Percentage arithmetic is carried out over `ℚ` (pandas produces binary floats;
the rational model agrees with the float computation on every value whose
intermediate results are exactly representable, in particular on all the
concrete dyadic inputs used below).
-/

/-- One pixel observation: a row of the frame returned by `load_data`. -/
structure Row where
  source : Int
  x : Int
  y : Int
  label : Int
  ndai : ℚ
  sd : ℚ
  corr : ℚ
  angle_DF : ℚ
  angle_CF : ℚ
  angle_BF : ℚ
  angle_AF : ℚ
  angle_AN : ℚ
deriving DecidableEq

/-- The eight numeric feature columns used by `feature_plot`. -/
inductive Feature where
  | NDAI | SD | CORR | angle_DF | angle_CF | angle_BF | angle_AF | angle_AN
deriving DecidableEq

/-- Column access `df_source[feature]` for one row. -/
def Row.featVal (r : Row) : Feature → ℚ
  | .NDAI => r.ndai
  | .SD => r.sd
  | .CORR => r.corr
  | .angle_DF => r.angle_DF
  | .angle_CF => r.angle_CF
  | .angle_BF => r.angle_BF
  | .angle_AF => r.angle_AF
  | .angle_AN => r.angle_AN

/-- The DataFrame column name of a feature (as it appears in the source). -/
def Feature.colName : Feature → String
  | .NDAI => "NDAI"
  | .SD => "SD"
  | .CORR => "CORR"
  | .angle_DF => "angle_DF"
  | .angle_CF => "angle_CF"
  | .angle_BF => "angle_BF"
  | .angle_AF => "angle_AF"
  | .angle_AN => "angle_AN"

/-- Distinct `source` values in ascending order.  `df.groupby('source')`
iterates the groups in ascending key order and `sorted(df['source'].unique())`
sorts the distinct values, so both spellings in the script enumerate exactly
this list. -/
def sourcesSorted (df : List Row) : List Int :=
  List.insertionSort (· ≤ ·) ((df.map Row.source).dedup)

/-- `df.groupby('source')['x'].count()` entry for one source: the number of
rows carrying that source. -/
def countSource (df : List Row) (s : Int) : Nat :=
  (df.filter (fun r => r.source == s)).length

/-- Crosstab cell before normalization: rows with the given source and label. -/
def countSourceLabel (df : List Row) (s l : Int) : Nat :=
  (df.filter (fun r => r.source == s && r.label == l)).length

/-- First printed report of `label_stats`: per-source row counts with the
appended `Total` row `df.shape[0]`. -/
structure CountsReport where
  perSource : List (Int × Nat)
  total : Nat
deriving DecidableEq

def countsReport (df : List Row) : CountsReport :=
  { perSource := (sourcesSorted df).map (fun s => (s, countSource df s))
    total := df.length }

/-- Does some row carry the given label (does the crosstab have this column)? -/
def hasLabel (df : List Row) (l : Int) : Bool :=
  df.any (fun r => r.label == l)

/-- The column selection `[[1, -1, 0]]` on the crosstab succeeds exactly when
all three labels occur somewhere in the frame; otherwise pandas raises a
`KeyError`. -/
def crosstabOk (df : List Row) : Bool :=
  hasLabel df 1 && hasLabel df (-1) && hasLabel df 0

/-- One cell of `pd.crosstab(df['source'], df['label'], normalize='index')`:
the fraction of the source's rows carrying the given label. -/
def frac (df : List Row) (s l : Int) : ℚ :=
  (countSourceLabel df s l : ℚ) / (countSource df s : ℚ)

/-- `stats.sum(axis=0, skipna=True)` for a three-column table: column-wise sum
of the row vectors. -/
def tableColSums (rows : List (List ℚ)) : List ℚ :=
  rows.foldr (fun v acc => List.zipWith (· + ·) v acc) [0, 0, 0]

/-- Column-wise sum of the per-source fractions for one label. -/
def colSum (df : List Row) (l : Int) : ℚ :=
  ((sourcesSorted df).map (fun s => frac df s l)).sum

/-- The percentage table built by `label_stats` before formatting: crosstab
normalized per row, columns reordered to `[1, -1, 0]`, and the appended
`Total` row `stats.sum(axis=0) / 3` (the divisor is the literal `3` in the
source). -/
structure RawTable where
  cols : List Int
  rows : List (Int × List ℚ)
  totalRow : List ℚ
deriving DecidableEq

def percentTable (df : List Row) : RawTable :=
  let rows := (sourcesSorted df).map
    (fun s => (s, [frac df s 1, frac df s (-1), frac df s 0]))
  { cols := [1, -1, 0]
    rows := rows
    totalRow := (tableColSums (rows.map Prod.snd)).map (fun q => q / 3) }

/-- Round-half-to-even to an integer, the rounding rule of Python's `round`. -/
def roundHalfEven (q : ℚ) : ℤ :=
  let f := ⌊q⌋
  let r := q - f
  if r < 1 / 2 then f
  else if 1 / 2 < r then f + 1
  else if f % 2 = 0 then f else f + 1

/-- Python's `repr` of the nonnegative float `n / 100` (`n` in hundredths):
the shortest decimal form, always keeping at least one digit after the point,
e.g. `2500 ↦ "25.0"`, `2530 ↦ "25.3"`, `2533 ↦ "25.33"`, `5 ↦ "0.05"`. -/
def fmtHundredths (n : ℤ) : String :=
  let ip := n / 100
  let fp := n % 100
  if fp == 0 then toString ip ++ ".0"
  else if fp % 10 == 0 then toString ip ++ "." ++ toString (fp / 10)
  else if fp < 10 then toString ip ++ ".0" ++ toString fp
  else toString ip ++ "." ++ toString fp

/-- One table cell as printed: `f"{round(float(x) * 100, 2)}%"`, i.e. the cell
fraction scaled to a percentage, rounded half-to-even to two decimals, and
rendered with Python's float `repr` (which drops trailing zeros). -/
def pyFmtCell (x : ℚ) : String :=
  fmtHundredths (roundHalfEven (x * 100 * 100)) ++ "%"

/-- Modelled from the spec: a percentage string that always shows exactly two
decimal places (the spec's formatting rule, e.g. `"35.27%"`), to be compared
with `pyFmtCell`. -/
def specFmtCell (x : ℚ) : String :=
  let n := roundHalfEven (x * 100 * 100)
  let fp := n % 100
  toString (n / 100) ++ "." ++ (if fp < 10 then "0" ++ toString fp else toString fp) ++ "%"

/-- The formatted percentage table: `stats.applymap(lambda x: f"...%")` applied
to every cell, the appended `Total` row included. -/
structure FmtTable where
  cols : List Int
  rows : List (Int × List String)
  totalRow : List String
deriving DecidableEq

def fmtPctTable (t : RawTable) : FmtTable :=
  { cols := t.cols
    rows := t.rows.map (fun p => (p.1, p.2.map pyFmtCell))
    totalRow := t.totalRow.map pyFmtCell }

/-- Size of the `(x, y, source)` group a row belongs to. -/
def tripleCount (df : List Row) (x y s : Int) : Nat :=
  (df.filter (fun r => r.x == x && r.y == y && r.source == s)).length

/-- `df.groupby(['x', 'y', 'source']).size().max()`: the largest group size
(`0` stands for the NaN pandas yields on an empty frame, which compares
unequal to `1` just as NaN does). -/
def maxTripleSize (df : List Row) : Nat :=
  (df.map (fun r => tripleCount df r.x r.y r.source)).foldr Nat.max 0

def noDupMsg : String := "> No observations with same coordinates found in each image"

def dupMsg : String := "> Detected observations with same coordinates"

/-- The duplicate-coordinate check line: the confirmation when the largest
`(x, y, source)` group has exactly one member, the warning otherwise. -/
def dupCheckMsg (df : List Row) : String :=
  if maxTripleSize df == 1 then noDupMsg else dupMsg

/-- One printed block of `label_stats`. -/
inductive RptLine where
  | counts : CountsReport → RptLine
  | table : FmtTable → RptLine
  | dup : String → RptLine
deriving DecidableEq

/-- The report of `label_stats`, in print order, paired with a flag recording
whether a `KeyError` escaped.  The counts block always prints first; the
crosstab column selection `[[1, -1, 0]]` then either succeeds (the formatted
table and the duplicate-check line follow) or raises, aborting the function
before the table or the check. -/
def label_stats (df : List Row) : List RptLine × Bool :=
  if crosstabOk df then
    ([RptLine.counts (countsReport df),
      RptLine.table (fmtPctTable (percentTable df)),
      RptLine.dup (dupCheckMsg df)], false)
  else
    ([RptLine.counts (countsReport df)], true)

/-- One kde curve drawn by `feature_plot`: its legend label and its data. -/
structure Curve where
  label : String
  data : List ℚ
deriving DecidableEq

/-- One axes of the `feature_plot` figure. -/
structure FPSubplot where
  gridRows : Nat
  gridCols : Nat
  index : Nat
  title : String
  xlabel : String
  curves : List Curve
deriving DecidableEq

/-- The `features` list of the source: column name paired with display name,
in subplot order 1..8 of the 2×4 grid. -/
def featureList : List (Feature × String) :=
  [(Feature.NDAI, "NDAI"), (Feature.SD, "SD"), (Feature.CORR, "CORR"),
   (Feature.angle_DF, "Radiance angle DF"), (Feature.angle_CF, "Radiance angle CF"),
   (Feature.angle_BF, "Radiance angle BF"), (Feature.angle_AF, "Radiance angle AF"),
   (Feature.angle_AN, "Radiance angle AN")]

/-- Builds the `feature_plot` axes for the tail of the feature list starting
at grid position `idx`.  Title and x-label are set inside the
`for source, df_source in df.groupby('source')` loop, so on a frame with no
rows (no groups) they keep matplotlib's default empty string; each group
contributes one kde curve per subplot, labelled `Image <source>`, in ascending
group order. -/
def fpGo (df : List Row) (idx : Nat) : List (Feature × String) → List FPSubplot
  | [] => []
  | (f, t) :: rest =>
    { gridRows := 2, gridCols := 4, index := idx
      title := if df.isEmpty then "" else "Distribution of " ++ t
      xlabel := if df.isEmpty then "" else t
      curves := (sourcesSorted df).map (fun s =>
        { label := s!"Image {s}"
          data := (df.filter (fun r => r.source == s)).map (fun r => r.featVal f) }) }
      :: fpGo df (idx + 1) rest

/-- The chart description built by `feature_plot`. -/
def feature_plot (df : List Row) : List FPSubplot :=
  fpGo df 1 featureList

/-- The `color` dict of `label_plot`; a label outside its keys means the
lookup `color[x]` raises a `KeyError`. -/
def color (l : Int) : Option String :=
  if l == 1 then some "#dddddd"
  else if l == 0 then some "black"
  else if l == (-1 : Int) then some "grey"
  else none

/-- Total version of the colour mapping, used to describe the colours of a
scatter that was actually drawn (every label it is applied to below is a key
of the dict, so the default branch is never reached there). -/
def colorT (l : Int) : String :=
  (color l).getD ""

/-- The two exceptions the `label_plot` loop can raise: matplotlib's
`ValueError` from `fig.add_subplot(1, 3, idx)` (which checks
`1 <= idx <= 3` against the 1×3 grid and raises for the fourth source
onwards), and the `KeyError` of the colour dict lookup `color[x]`. -/
inductive PlotErr where
  | keyError
  | valueError
deriving DecidableEq

/-- One scatter call: the source's `(x, y)` points in row order and the colour
of each point. -/
structure LPScatter where
  points : List (Int × Int)
  colors : List String
deriving DecidableEq

/-- One axes of the `label_plot` figure: subplot `idx` of the 1×3 grid, titled
`Image <source>`.  `scatter` is `none` for an axes that was created and titled
but whose scatter was never drawn because the colour apply raised first. -/
structure LPSubplot where
  gridRows : Nat
  gridCols : Nat
  index : Nat
  title : String
  scatter : Option LPScatter
deriving DecidableEq

/-- The chart description built by `label_plot`, together with the exception
that escaped, if any. -/
structure LPResult where
  subplots : List LPSubplot
  error : Option PlotErr
deriving DecidableEq

/-- The completed scatter subplot for one source. -/
def mkLPSub (df : List Row) (idx : Nat) (s : Int) : LPSubplot :=
  { gridRows := 1, gridCols := 3, index := idx
    title := s!"Image {s}"
    scatter := some
      { points := (df.filter (fun r => r.source == s)).map (fun r => (r.x, r.y))
        colors := (df.filter (fun r => r.source == s)).map (fun r => colorT r.label) } }

/-- An axes that was added and titled but holds no scatter: the state
`ax = fig.add_subplot(...)`, `ax.set_title(...)` leave behind when the
following colour apply raises. -/
def axesOnly (idx : Nat) (s : Int) : LPSubplot :=
  { gridRows := 1, gridCols := 3, index := idx
    title := s!"Image {s}"
    scatter := none }

/-- `df_source['label'].apply(lambda x: color[x])`: the colour of every row in
order, or `none` when some label is not a key of the dict (the `KeyError`). -/
def applyColors : List Row → Option (List String)
  | [] => some []
  | r :: rs =>
    match color r.label, applyColors rs with
    | some c, some cs => some (c :: cs)
    | _, _ => none

/-- The loop of `label_plot` over the sorted distinct sources, `idx` counting
from `enumerate(..., 1)`.  Each iteration first calls
`fig.add_subplot(1, 3, idx)`, which raises `ValueError` when `idx` exceeds the
three cells of the 1×3 grid; then the axes is created and titled, and the
colour apply is evaluated before the scatter is drawn: if any label of the
current source is not a key of the dict, the `KeyError` aborts the loop,
leaving the earlier scatters and the current titled-but-empty axes behind. -/
def lpGo (df : List Row) (idx : Nat) : List Int → LPResult
  | [] => { subplots := [], error := none }
  | s :: rest =>
    if 3 < idx then { subplots := [], error := some PlotErr.valueError }
    else
      match applyColors (df.filter (fun r => r.source == s)) with
      | some cs =>
        let res := lpGo df (idx + 1) rest
        { subplots :=
            { gridRows := 1, gridCols := 3, index := idx
              title := s!"Image {s}"
              scatter := some
                { points := (df.filter (fun r => r.source == s)).map (fun r => (r.x, r.y))
                  colors := cs } } :: res.subplots
          error := res.error }
      | none =>
        { subplots := [axesOnly idx s], error := some PlotErr.keyError }

def label_plot (df : List Row) : LPResult :=
  lpGo df 1 (sourcesSorted df)

/-- The completed subplots `label_plot` builds for a list of sources, starting
at grid position `idx`. -/
def mkSubs (df : List Row) (idx : Nat) : List Int → List LPSubplot
  | [] => []
  | s :: rest => mkLPSub df idx s :: mkSubs df (idx + 1) rest

/-- All rows of one source have labels inside the colour dict. -/
def goodSrc (df : List Row) (s : Int) : Bool :=
  (df.filter (fun r => r.source == s)).all (fun r => (color r.label).isSome)

/-- An invocation of `label_stats` paired with the dataset it leaves behind.
Every pandas operation the function performs (`groupby`, `count`, `append`,
`crosstab`, `sum`, `applymap`, `size`, `max`) returns a fresh object and none
is called with in-place semantics, so the frame handed back to the caller is
the frame passed in. -/
def labelStatsRun (df : List Row) : List Row × (List RptLine × Bool) :=
  (df, label_stats df)

/-- An invocation of `feature_plot` paired with the dataset it leaves behind
(`groupby`, column selection and `plot` are all read-only on the frame). -/
def featurePlotRun (df : List Row) : List Row × List FPSubplot :=
  (df, feature_plot df)

/-- An invocation of `label_plot` paired with the dataset it leaves behind
(`unique`, boolean-mask selection, `apply` and `plot.scatter` are all
read-only on the frame). -/
def labelPlotRun (df : List Row) : List Row × LPResult :=
  (df, label_plot df)

/-- A row with the given keys and all feature columns zero. -/
def mkRow (s x y l : Int) : Row :=
  { source := s, x := x, y := y, label := l
    ndai := 0, sd := 0, corr := 0, angle_DF := 0, angle_CF := 0
    angle_BF := 0, angle_AF := 0, angle_AN := 0 }

/-- Single-source dataset carrying all three labels, distinct coordinates. -/
def exA : List Row :=
  [mkRow 1 0 0 1, mkRow 1 0 1 (-1), mkRow 1 1 0 0]

/-- Two-source dataset carrying all three labels, distinct coordinates. -/
def exB : List Row :=
  [mkRow 2 0 0 1, mkRow 2 0 1 (-1), mkRow 1 0 0 0, mkRow 1 0 1 1]

/-- Single-source dataset whose per-class fractions are the dyadic rationals
1/4, 1/4, 1/2, so the script's float arithmetic on it is exact. -/
def exC : List Row :=
  [mkRow 5 0 0 1, mkRow 5 0 1 (-1), mkRow 5 1 0 0, mkRow 5 1 1 0]

/-- Dataset whose second source contains a label outside the colour dict. -/
def exD : List Row :=
  [mkRow 1 0 0 1, mkRow 1 0 1 (-1), mkRow 1 1 0 0, mkRow 2 0 0 7]

/-- Dataset with four distinct sources, all labels valid: one source too many
for the hardcoded 1×3 grid of `label_plot`. -/
def exE : List Row :=
  [mkRow 1 0 0 1, mkRow 2 0 0 (-1), mkRow 3 0 0 0, mkRow 4 0 0 1]

/-- Dataset with five distinct sources whose only out-of-range label sits in
the fifth source: the grid bound fires before the colour lookup ever could. -/
def exF : List Row :=
  [mkRow 1 0 0 1, mkRow 2 0 0 (-1), mkRow 3 0 0 0, mkRow 4 0 0 1, mkRow 5 0 0 7]

/-! ### Basic facts about the sorted distinct sources -/

lemma mem_sourcesSorted (df : List Row) (s : Int) :
    s ∈ sourcesSorted df ↔ ∃ r ∈ df, r.source = s := by
  unfold sourcesSorted
  rw [(List.perm_insertionSort _ _).mem_iff, List.mem_dedup, List.mem_map]

lemma nodup_sourcesSorted (df : List Row) : (sourcesSorted df).Nodup :=
  ((List.perm_insertionSort _ _).nodup_iff).mpr ((df.map Row.source).nodup_dedup)

lemma sorted_sourcesSorted (df : List Row) :
    List.Sorted (· ≤ ·) (sourcesSorted df) :=
  List.sorted_insertionSort _ _

lemma countSource_pos (df : List Row) (s : Int) (h : s ∈ sourcesSorted df) :
    0 < countSource df s := by
  obtain ⟨r, hr, rfl⟩ := (mem_sourcesSorted df s).mp h
  have hm : r ∈ df.filter (fun r' => r'.source == r.source) :=
    List.mem_filter.mpr ⟨hr, by simp⟩
  exact List.length_pos.mpr (List.ne_nil_of_mem hm)

/-! ### Partition lemmas for the pixel counts -/

lemma countSource_cons (r : Row) (df : List Row) (s : Int) :
    countSource (r :: df) s = countSource df s + (if r.source == s then 1 else 0) := by
  by_cases h : r.source = s <;> simp [countSource, List.filter_cons, h, Nat.add_comm]

lemma sum_count_ones (a : Int) (keys : List Int) :
    (keys.map (fun s => if a == s then 1 else 0)).sum = keys.count a := by
  induction keys with
  | nil => simp
  | cons k ks ih =>
    rw [List.map_cons, List.sum_cons, ih, List.count_cons]
    simp only [beq_iff_eq]
    by_cases h : a = k
    · subst h; simp; omega
    · rw [if_neg h, if_neg (Ne.symm h)]; omega

lemma sum_map_add (g h : Int → Nat) (keys : List Int) :
    (keys.map (fun s => g s + h s)).sum = (keys.map g).sum + (keys.map h).sum := by
  induction keys with
  | nil => simp
  | cons k ks ih => simp [ih]; omega

lemma sum_counts (df : List Row) (keys : List Int) (hnd : keys.Nodup)
    (hcov : ∀ r ∈ df, r.source ∈ keys) :
    (keys.map (fun s => countSource df s)).sum = df.length := by
  induction df with
  | nil => simp [countSource]
  | cons r df ih =>
    have ih' := ih (fun r' h => hcov r' (List.mem_cons_of_mem _ h))
    calc (keys.map (fun s => countSource (r :: df) s)).sum
        = (keys.map (fun s => countSource df s + (if r.source == s then 1 else 0))).sum := by
          simp only [countSource_cons]
      _ = (keys.map (fun s => countSource df s)).sum
            + (keys.map (fun s => if r.source == s then 1 else 0)).sum :=
          sum_map_add _ _ keys
      _ = df.length + keys.count r.source := by rw [ih', sum_count_ones]
      _ = (r :: df).length := by
          rw [List.count_eq_one_of_mem hnd (hcov r (List.mem_cons_self r df))]
          simp [Nat.add_comm]

/-! ### The three label counts of a source partition its rows -/

lemma countSourceLabel_cons (r : Row) (df : List Row) (s l : Int) :
    countSourceLabel (r :: df) s l
      = countSourceLabel df s l + (if r.source = s ∧ r.label = l then 1 else 0) := by
  by_cases h1 : r.source = s
  · by_cases h2 : r.label = l <;>
      simp [countSourceLabel, List.filter_cons, h1, h2, Nat.add_comm]
  · simp [countSourceLabel, List.filter_cons, h1]

lemma label_partition (df : List Row) (s : Int)
    (hlab : ∀ r ∈ df, r.label = 1 ∨ r.label = -1 ∨ r.label = 0) :
    countSourceLabel df s 1 + countSourceLabel df s (-1) + countSourceLabel df s 0
      = countSource df s := by
  induction df with
  | nil => simp [countSourceLabel, countSource]
  | cons r df ih =>
    have ih' := ih (fun r' h => hlab r' (List.mem_cons_of_mem _ h))
    have hr := hlab r (List.mem_cons_self r df)
    rw [countSourceLabel_cons, countSourceLabel_cons, countSourceLabel_cons, countSource_cons]
    by_cases hs : r.source = s
    · rcases hr with h1 | h1 | h1 <;> simp [hs, h1] <;> omega
    · simp [hs]; omega

lemma frac_sum (df : List Row) (s : Int) (hmem : s ∈ sourcesSorted df)
    (hlab : ∀ r ∈ df, r.label = 1 ∨ r.label = -1 ∨ r.label = 0) :
    frac df s 1 + frac df s (-1) + frac df s 0 = 1 := by
  have hn : 0 < countSource df s := countSource_pos df s hmem
  have hpart := label_partition df s hlab
  have hcast : (countSourceLabel df s 1 : ℚ) + countSourceLabel df s (-1)
      + countSourceLabel df s 0 = (countSource df s : ℚ) := by
    exact_mod_cast congrArg (Nat.cast : Nat → ℚ) hpart
  unfold frac
  rw [div_add_div_same, div_add_div_same, hcast]
  exact div_self (Nat.cast_ne_zero.mpr hn.ne')

/-! ### Column sums of the percentage table -/

lemma tableColSums_map3 (f g h : Int → ℚ) (ss : List Int) :
    tableColSums (ss.map (fun s => [f s, g s, h s]))
      = [(ss.map f).sum, (ss.map g).sum, (ss.map h).sum] := by
  induction ss with
  | nil => simp [tableColSums]
  | cons a t ih => simp [tableColSums, List.foldr_cons] at ih ⊢; rw [ih]; simp

/-! ### The maximum of the duplicate group sizes -/

lemma le_foldr_max (l : List Nat) (hne : l ≠ []) (h1 : ∀ x ∈ l, 1 ≤ x) :
    1 ≤ l.foldr Nat.max 0 := by
  cases l with
  | nil => exact absurd rfl hne
  | cons a t =>
    exact le_trans (h1 a (List.mem_cons_self a t)) (Nat.le_max_left a _)

lemma foldr_max_eq_one (l : List Nat) (h1 : ∀ x ∈ l, 1 ≤ x) :
    l.foldr Nat.max 0 = 1 ↔ (l ≠ [] ∧ ∀ x ∈ l, x = 1) := by
  induction l with
  | nil => simp
  | cons a t ih =>
    have ha := h1 a (List.mem_cons_self a t)
    have ih' := ih (fun x hx => h1 x (List.mem_cons_of_mem _ hx))
    cases t with
    | nil => simp [Nat.max_zero]
    | cons b t' =>
      have hm : 1 ≤ (b :: t').foldr Nat.max 0 :=
        le_foldr_max _ (by simp) (fun x hx => h1 x (List.mem_cons_of_mem _ hx))
      constructor
      · intro h
        have hal : a ≤ 1 := h ▸ Nat.le_max_left a ((b :: t').foldr Nat.max 0)
        have hml : (b :: t').foldr Nat.max 0 ≤ 1 :=
          h ▸ Nat.le_max_right a ((b :: t').foldr Nat.max 0)
        obtain ⟨-, hall⟩ := ih'.mp (le_antisymm hml hm)
        refine ⟨by simp, ?_⟩
        intro x hx
        rcases List.mem_cons.mp hx with rfl | hx
        · omega
        · exact hall x hx
      · rintro ⟨-, hall⟩
        have ha1 := hall a (List.mem_cons_self a _)
        have hr1 : (b :: t').foldr Nat.max 0 = 1 :=
          ih'.mpr ⟨by simp, fun x hx => hall x (List.mem_cons_of_mem _ hx)⟩
        simp [List.foldr_cons] at hr1 ⊢
        rw [ha1, hr1]
        decide

lemma tripleCount_pos (df : List Row) (r : Row) (hr : r ∈ df) :
    1 ≤ tripleCount df r.x r.y r.source := by
  have hm : r ∈ df.filter (fun r' => r'.x == r.x && r'.y == r.y && r'.source == r.source) :=
    List.mem_filter.mpr ⟨hr, by simp⟩
  exact List.length_pos.mpr (List.ne_nil_of_mem hm)

lemma maxTripleSize_eq_one (df : List Row) (hne : df ≠ []) :
    maxTripleSize df = 1 ↔ ∀ r ∈ df, tripleCount df r.x r.y r.source = 1 := by
  unfold maxTripleSize
  rw [foldr_max_eq_one]
  · constructor
    · rintro ⟨-, hall⟩ r hr
      exact hall _ (List.mem_map.mpr ⟨r, hr, rfl⟩)
    · intro hall
      refine ⟨by simpa using hne, ?_⟩
      intro x hx
      obtain ⟨r, hr, rfl⟩ := List.mem_map.mp hx
      exact hall r hr
  · intro x hx
    obtain ⟨r, hr, rfl⟩ := List.mem_map.mp hx
    exact tripleCount_pos df r hr

/-! ### The colour lookup of label_plot -/

lemma goodSrc_of_labels (df : List Row)
    (hlab : ∀ r ∈ df, r.label = 1 ∨ r.label = -1 ∨ r.label = 0) (s : Int) :
    goodSrc df s = true := by
  rw [goodSrc, List.all_eq_true]
  intro r hrf
  rcases hlab r (List.mem_filter.mp hrf).1 with h | h | h <;> simp [color, h]

lemma applyColors_eq_some (rows : List Row)
    (h : ∀ r ∈ rows, (color r.label).isSome) :
    applyColors rows = some (rows.map (fun r => colorT r.label)) := by
  induction rows with
  | nil => rfl
  | cons r rs ih =>
    obtain ⟨c, hc⟩ := Option.isSome_iff_exists.mp (h r (List.mem_cons_self r rs))
    have ih' := ih (fun x hx => h x (List.mem_cons_of_mem _ hx))
    simp [applyColors, hc, ih', colorT]

lemma applyColors_eq_none (rows : List Row)
    (h : ¬ ∀ r ∈ rows, (color r.label).isSome) :
    applyColors rows = none := by
  induction rows with
  | nil => exact absurd (by simp) h
  | cons r rs ih =>
    by_cases hr : (color r.label).isSome
    · obtain ⟨c, hc⟩ := Option.isSome_iff_exists.mp hr
      have hrs : ¬ ∀ x ∈ rs, (color x.label).isSome := by
        intro hall
        refine h ?_
        intro x hx
        rcases List.mem_cons.mp hx with rfl | hx
        · exact hr
        · exact hall x hx
      simp [applyColors, hc, ih hrs]
    · have hc : color r.label = none := Option.not_isSome_iff_eq_none.mp hr
      simp [applyColors, hc]

lemma lpGo_ok (df : List Row) :
    ∀ (srcs : List Int) (idx : Nat),
      idx + srcs.length ≤ 4 → (∀ s ∈ srcs, goodSrc df s) →
      lpGo df idx srcs = { subplots := mkSubs df idx srcs, error := none } := by
  intro srcs
  induction srcs with
  | nil => intro idx _ _; rfl
  | cons s rest ih =>
    intro idx hb hg
    have hgs := hg s (List.mem_cons_self s rest)
    have hs' := hgs
    rw [goodSrc, List.all_eq_true] at hs'
    have hsome := applyColors_eq_some (df.filter (fun r => r.source == s)) hs'
    have hidx : ¬ 3 < idx := by
      simp only [List.length_cons] at hb
      omega
    have hrest := ih (idx + 1) (by simp only [List.length_cons] at hb; omega)
      (fun x hx => hg x (List.mem_cons_of_mem _ hx))
    simp only [lpGo, if_neg hidx, hsome, hrest, mkSubs, mkLPSub]

lemma lpGo_keyError (df : List Row) :
    ∀ (pre : List Int) (s : Int) (post : List Int) (idx : Nat),
      (∀ x ∈ pre, goodSrc df x) → goodSrc df s = false → idx + pre.length ≤ 3 →
      lpGo df idx (pre ++ s :: post)
        = { subplots := mkSubs df idx pre ++ [axesOnly (idx + pre.length) s]
            error := some PlotErr.keyError } := by
  intro pre
  induction pre with
  | nil =>
    intro s post idx _ hbad hb
    have hidx : ¬ 3 < idx := by simp only [List.length_nil] at hb; omega
    have hnone := applyColors_eq_none (df.filter (fun r => r.source == s)) (by
      intro hall
      rw [goodSrc, List.all_eq_true.mpr hall] at hbad
      exact Bool.noConfusion hbad)
    simp only [List.nil_append, lpGo, if_neg hidx, hnone, mkSubs, List.nil_append,
      List.length_nil, Nat.add_zero]
  | cons p pre' ih =>
    intro s post idx hpre hbad hb
    have hgp := hpre p (List.mem_cons_self p pre')
    have hp' := hgp
    rw [goodSrc, List.all_eq_true] at hp'
    have hsome := applyColors_eq_some (df.filter (fun r => r.source == p)) hp'
    have hidx : ¬ 3 < idx := by simp only [List.length_cons] at hb; omega
    have hrec := ih s post (idx + 1)
      (fun x hx => hpre x (List.mem_cons_of_mem _ hx)) hbad
      (by simp only [List.length_cons] at hb; omega)
    have harith : idx + 1 + pre'.length = idx + (pre'.length + 1) := by omega
    simp only [List.cons_append, lpGo, if_neg hidx, hsome, List.append_eq, hrec,
      mkSubs, mkLPSub, List.length_cons, harith]

lemma lpGo_no_keyError (df : List Row) :
    ∀ (srcs : List Int) (idx : Nat),
      (∀ s ∈ srcs, goodSrc df s) →
      (lpGo df idx srcs).error ≠ some PlotErr.keyError := by
  intro srcs
  induction srcs with
  | nil => intro idx _; simp [lpGo]
  | cons s rest ih =>
    intro idx hg
    by_cases hidx : 3 < idx
    · simp [lpGo, hidx]
    · have hgs := hg s (List.mem_cons_self s rest)
      have hs' := hgs
      rw [goodSrc, List.all_eq_true] at hs'
      have hsome := applyColors_eq_some (df.filter (fun r => r.source == s)) hs'
      have hrest := ih (idx + 1) (fun x hx => hg x (List.mem_cons_of_mem _ hx))
      simp only [lpGo, if_neg hidx, hsome]
      exact hrest

/-! ### Claim theorems -/

lemma percentTable_totalRow (df : List Row) :
    (percentTable df).totalRow
      = [colSum df 1 / 3, colSum df (-1) / 3, colSum df 0 / 3] := by
  show (tableColSums (((sourcesSorted df).map
      (fun s => (s, [frac df s 1, frac df s (-1), frac df s 0]))).map Prod.snd)).map
      (fun q => q / 3) = _
  rw [List.map_map]
  have hcomp : (Prod.snd ∘ fun s => (s, [frac df s 1, frac df s (-1), frac df s 0]))
      = fun s => [frac df s 1, frac df s (-1), frac df s 0] := rfl
  rw [hcomp, tableColSums_map3]
  rfl

lemma sourcesSorted_exA : sourcesSorted exA = [1] := by decide

lemma frac_exA (l : Int) (c : Nat) (hc : countSourceLabel exA 1 l = c) :
    frac exA 1 l = (c : ℚ) / 3 := by
  rw [frac, hc, show countSource exA 1 = 3 from by decide]
  norm_num

/-- C1 (amended): the `Total` row `label_stats` appends to the per-class
percentage table is, in each label column, the column-wise sum of the
per-source fractions divided by the constant `3` (which coincides with the
number of distinct sources only when the dataset has exactly three of them). -/
theorem C1_total_row_div_three (df : List Row) :
    (percentTable df).totalRow
      = [colSum df 1 / 3, colSum df (-1) / 3, colSum df 0 / 3] :=
  percentTable_totalRow df

/-- C1 counterexample: on a dataset with a single distinct source the appended
`Total` row is the column sums divided by 3, not by the number of distinct
source values (which would give the column sums themselves). -/
theorem C1_counterexample :
    (percentTable exA).totalRow
      ≠ (percentTable exA).cols.map
          (fun l => colSum exA l / ((sourcesSorted exA).length : ℚ)) := by
  have h1 : colSum exA 1 = 1 / 3 := by
    rw [colSum, sourcesSorted_exA, List.map_singleton, List.sum_singleton,
      frac_exA 1 1 (by decide)]
    norm_num
  rw [percentTable_totalRow, show (percentTable exA).cols = [1, -1, 0] from rfl]
  intro heq
  have hhead := congrArg (fun l => l.get? 0) heq
  simp only [List.get?, sourcesSorted_exA, List.map_cons, List.length_singleton] at hhead
  rw [h1] at hhead
  norm_num at hhead

/-- C2: whenever `label_stats` prints its duplicate-coordinate line, that line
is the confirmation message iff every `(x, y, source)` triple of the dataset
occurs in exactly one row, and the warning message otherwise. -/
theorem C2_dup_check (df : List Row) (m : String)
    (h : RptLine.dup m ∈ (label_stats df).1) :
    m = noDupMsg ↔ ∀ r ∈ df, tripleCount df r.x r.y r.source = 1 := by
  by_cases hc : crosstabOk df
  · have hm : m = dupCheckMsg df := by
      simpa [label_stats, hc] using h
    subst hm
    have hne : df ≠ [] := by
      have h1 : hasLabel df 1 = true := by
        have hx := hc
        simp only [crosstabOk, Bool.and_eq_true] at hx
        exact hx.1.1
      rw [hasLabel, List.any_eq_true] at h1
      obtain ⟨r, hr, -⟩ := h1
      exact List.ne_nil_of_mem hr
    have key := maxTripleSize_eq_one df hne
    by_cases hmx : maxTripleSize df = 1
    · rw [dupCheckMsg, if_pos (by simpa using hmx)]
      exact iff_of_true rfl (key.mp hmx)
    · rw [dupCheckMsg, if_neg (by simpa using hmx)]
      refine iff_of_false (fun hdm => ?_) (fun hall => hmx (key.mpr hall))
      exact absurd hdm (by decide)
  · simp [label_stats, hc] at h

/-- C2 witness: on a concrete dataset with distinct coordinates the printed
line is the confirmation and every triple indeed occurs exactly once. -/
theorem C2_witness :
    RptLine.dup noDupMsg ∈ (label_stats exA).1 ∧
    (noDupMsg = noDupMsg ↔ ∀ r ∈ exA, tripleCount exA r.x r.y r.source = 1) :=
  ⟨by decide, C2_dup_check exA noDupMsg (by decide)⟩

/-- C3: the per-source pixel counts printed by `label_stats` sum to the
dataset's row count, and the appended `Total` entry is that row count; the
counts report is part of the printed output on every input. -/
theorem C3_pixel_counts (df : List Row) :
    ((countsReport df).perSource.map Prod.snd).sum = df.length ∧
    (countsReport df).total = df.length ∧
    RptLine.counts (countsReport df) ∈ (label_stats df).1 := by
  refine ⟨?_, rfl, ?_⟩
  · show (((sourcesSorted df).map (fun s => (s, countSource df s))).map Prod.snd).sum
        = df.length
    rw [List.map_map]
    exact sum_counts df (sourcesSorted df) (nodup_sourcesSorted df)
      (fun r hr => (mem_sourcesSorted df _).mpr ⟨r, hr, rfl⟩)
  · by_cases hc : crosstabOk df <;> simp [label_stats, hc]

/-- C4: on a dataset whose labels all lie in `{1, -1, 0}`, every per-source
row of the percentage table has its three fractions summing to `1`. -/
theorem C4_fractions_sum_one (df : List Row)
    (hlab : ∀ r ∈ df, r.label = 1 ∨ r.label = -1 ∨ r.label = 0) :
    ∀ p ∈ (percentTable df).rows, p.2.sum = 1 := by
  intro p hp
  have hp' : p ∈ (sourcesSorted df).map
      (fun s => (s, [frac df s 1, frac df s (-1), frac df s 0])) := hp
  obtain ⟨s, hs, rfl⟩ := List.mem_map.mp hp'
  have hsum := frac_sum df s hs hlab
  simp only [List.sum_cons, List.sum_nil, add_zero]
  linarith [hsum]

lemma percentTable_rows_exA :
    (percentTable exA).rows = [(1, [frac exA 1 1, frac exA 1 (-1), frac exA 1 0])] := by
  show (sourcesSorted exA).map
    (fun s => (s, [frac exA s 1, frac exA s (-1), frac exA s 0])) = _
  rw [sourcesSorted_exA, List.map_singleton]

/-- C4 witness: the single row of the one-source dataset `exA` sums to `1`. -/
theorem C4_witness :
    (∀ r ∈ exA, r.label = 1 ∨ r.label = -1 ∨ r.label = 0) ∧
    ((1 : Int), [frac exA 1 1, frac exA 1 (-1), frac exA 1 0]) ∈ (percentTable exA).rows ∧
    ([frac exA 1 1, frac exA 1 (-1), frac exA 1 0] : List ℚ).sum = 1 :=
  ⟨by decide, by rw [percentTable_rows_exA]; exact List.mem_singleton.mpr rfl,
    C4_fractions_sum_one exA (by decide)
      ((1 : Int), [frac exA 1 1, frac exA 1 (-1), frac exA 1 0])
      (by rw [percentTable_rows_exA]; exact List.mem_singleton.mpr rfl)⟩

/-- C5 (amended): on a dataset with at most three distinct sources whose
labels all lie in `{1, -1, 0}`, `label_plot` completes without an exception
and builds exactly the subplots described by `mkSubs`: one per distinct
source, indexed from 1 in the order of `sourcesSorted` (which is ascending
and duplicate-free), each titled `Image <source>`, its scatter holding
exactly the rows of that source and each point coloured by the fixed
label-to-colour dict.  With four or more sources the `add_subplot(1, 3, idx)`
bound raises `ValueError` at the fourth source instead. -/
theorem C5_label_plot (df : List Row)
    (hlab : ∀ r ∈ df, r.label = 1 ∨ r.label = -1 ∨ r.label = 0)
    (hn : (sourcesSorted df).length ≤ 3) :
    (label_plot df).error = none ∧
    (label_plot df).subplots = mkSubs df 1 (sourcesSorted df) ∧
    List.Sorted (· ≤ ·) (sourcesSorted df) ∧
    (sourcesSorted df).Nodup := by
  have h := lpGo_ok df (sourcesSorted df) 1 (by omega)
    (fun s _ => goodSrc_of_labels df hlab s)
  rw [label_plot, h]
  exact ⟨rfl, rfl, sorted_sourcesSorted df, nodup_sourcesSorted df⟩

/-- C5 counterexample: on the four-source dataset `exE`, every label is
valid, yet `label_plot` raises matplotlib's `ValueError` at the fourth call
`add_subplot(1, 3, 4)` and only three of the four sources get a subplot —
the claim's one-subplot-per-source contract fails. -/
theorem C5_counterexample :
    (∀ r ∈ exE, r.label = 1 ∨ r.label = -1 ∨ r.label = 0) ∧
    (sourcesSorted exE).length = 4 ∧
    (label_plot exE).error = some PlotErr.valueError ∧
    (label_plot exE).subplots.length = 3 ∧
    (label_plot exE).subplots.length ≠ (sourcesSorted exE).length := by
  refine ⟨by decide, by decide, by decide, by decide, by decide⟩

/-- C5 witness: the two-source dataset `exB` with valid labels. -/
theorem C5_witness :
    (∀ r ∈ exB, r.label = 1 ∨ r.label = -1 ∨ r.label = 0) ∧
    (sourcesSorted exB).length ≤ 3 ∧
    ((label_plot exB).error = none ∧
     (label_plot exB).subplots = mkSubs exB 1 (sourcesSorted exB) ∧
     List.Sorted (· ≤ ·) (sourcesSorted exB) ∧
     (sourcesSorted exB).Nodup) :=
  ⟨by decide, by decide, C5_label_plot exB (by decide) (by decide)⟩

/-- C10 (amended): when every label lies in `{1, -1, 0}` the colour lookup
never fails, so no `KeyError` can escape `label_plot` (with four or more
sources a `ValueError` escapes instead, but never a `KeyError`).  And when
the first source with an out-of-range label sits within the three grid cells
— the sorted sources split as `pre ++ s :: post` with the rows of `pre` all
colourable, `s` containing a bad label and `pre.length ≤ 2` — the loop dies
with the `KeyError` exactly while processing `s`: the earlier sources have
their full scatters, `s` leaves a titled axes without a scatter, and nothing
after `s` is reached.  A bad source in position four or beyond is never
processed: `add_subplot(1, 3, idx)` raises `ValueError` first. -/
theorem C10_color_keyerror (df : List Row) :
    ((∀ r ∈ df, r.label = 1 ∨ r.label = -1 ∨ r.label = 0) →
      (label_plot df).error ≠ some PlotErr.keyError) ∧
    (∀ (pre : List Int) (s : Int) (post : List Int),
      sourcesSorted df = pre ++ s :: post →
      (∀ x ∈ pre, goodSrc df x) → goodSrc df s = false → pre.length ≤ 2 →
      (label_plot df).error = some PlotErr.keyError ∧
      (label_plot df).subplots
        = mkSubs df 1 pre ++ [axesOnly (pre.length + 1) s]) := by
  constructor
  · intro hlab
    exact lpGo_no_keyError df (sourcesSorted df) 1
      (fun s _ => goodSrc_of_labels df hlab s)
  · intro pre s post hdec hpre hbad hlen
    have h := lpGo_keyError df pre s post 1 hpre hbad (by omega)
    rw [label_plot, hdec, h]
    refine ⟨rfl, ?_⟩
    rw [Nat.add_comm 1 pre.length]

/-- C10 counterexample: on the five-source dataset `exF` the only
out-of-range label sits in the fifth source, but `label_plot` dies with the
`ValueError` of `add_subplot(1, 3, 4)` before any colour lookup can fail —
no `KeyError` is raised although a bad label exists. -/
theorem C10_counterexample :
    (∃ r ∈ exF, ¬(r.label = 1 ∨ r.label = -1 ∨ r.label = 0)) ∧
    (label_plot exF).error = some PlotErr.valueError ∧
    (label_plot exF).error ≠ some PlotErr.keyError := by
  refine ⟨by decide, by decide, by decide⟩

/-- C10 witness: no `KeyError` on the label-valid `exB`; on `exD`, whose
second of two sources holds the bad label 7, the `KeyError` fires while
processing that source, leaving its axes titled but scatterless. -/
theorem C10_witness :
    ((label_plot exB).error ≠ some PlotErr.keyError) ∧
    ((label_plot exD).error = some PlotErr.keyError ∧
     (label_plot exD).subplots = mkSubs exD 1 [1] ++ [axesOnly 2 2]) :=
  ⟨(C10_color_keyerror exB).1 (by decide),
   (C10_color_keyerror exD).2 [1] 2 [] (by decide) (by decide) (by decide) (by decide)⟩

/-- C6 (amended): on a nonempty dataset, `feature_plot` builds exactly eight
subplots at the positions 1..8 of a 2×4 grid, titled with the feature display
names (`Radiance angle DF`, not the column name `angle_DF`), and each subplot
holds one kde curve per distinct source, labelled `Image <source>`. -/
theorem C6_feature_plot (df : List Row) (hne : df ≠ []) :
    (feature_plot df).map (fun p => (p.gridRows, p.gridCols, p.index))
      = [(2, 4, 1), (2, 4, 2), (2, 4, 3), (2, 4, 4),
         (2, 4, 5), (2, 4, 6), (2, 4, 7), (2, 4, 8)] ∧
    (feature_plot df).map FPSubplot.title
      = ["Distribution of NDAI", "Distribution of SD", "Distribution of CORR",
         "Distribution of Radiance angle DF", "Distribution of Radiance angle CF",
         "Distribution of Radiance angle BF", "Distribution of Radiance angle AF",
         "Distribution of Radiance angle AN"] ∧
    (feature_plot df).map (fun p => p.curves.map Curve.label)
      = List.replicate 8 ((sourcesSorted df).map (fun s => s!"Image {s}")) ∧
    (feature_plot df).map (fun p => p.curves.length)
      = List.replicate 8 (sourcesSorted df).length := by
  have hemp : df.isEmpty = false := by
    cases df with
    | nil => exact absurd rfl hne
    | cons a t => rfl
  refine ⟨?_, ?_, ?_, ?_⟩ <;>
    simp [feature_plot, fpGo, featureList, hemp, List.map_map, Function.comp,
      List.replicate]

/-- C6 counterexample: the fourth subplot of `feature_plot` is titled with the
display name `Radiance angle DF`, not with the feature column name
`angle_DF`. -/
theorem C6_counterexample :
    ((feature_plot exA).map FPSubplot.title).get? 3
        = some "Distribution of Radiance angle DF" ∧
    ((feature_plot exA).map FPSubplot.title).get? 3
        ≠ some ("Distribution of " ++ Feature.angle_DF.colName) := by
  constructor
  · decide
  · decide

/-- C6 witness: the amended statement instantiated at the nonempty `exA`. -/
theorem C6_witness :
    exA ≠ [] ∧
    ((feature_plot exA).map (fun p => (p.gridRows, p.gridCols, p.index))
        = [(2, 4, 1), (2, 4, 2), (2, 4, 3), (2, 4, 4),
           (2, 4, 5), (2, 4, 6), (2, 4, 7), (2, 4, 8)] ∧
     (feature_plot exA).map FPSubplot.title
        = ["Distribution of NDAI", "Distribution of SD", "Distribution of CORR",
           "Distribution of Radiance angle DF", "Distribution of Radiance angle CF",
           "Distribution of Radiance angle BF", "Distribution of Radiance angle AF",
           "Distribution of Radiance angle AN"] ∧
     (feature_plot exA).map (fun p => p.curves.map Curve.label)
        = List.replicate 8 ((sourcesSorted exA).map (fun s => s!"Image {s}")) ∧
     (feature_plot exA).map (fun p => p.curves.length)
        = List.replicate 8 (sourcesSorted exA).length) :=
  ⟨by decide, C6_feature_plot exA (by decide)⟩

lemma roundHalfEven_intCast (n : ℤ) : roundHalfEven ((n : ℚ)) = n := by
  rw [roundHalfEven]
  simp only [Int.floor_intCast, sub_self]
  norm_num

lemma pyFmtCell_eval (x : ℚ) (n : ℤ) (hx : x * 100 * 100 = (n : ℚ)) :
    pyFmtCell x = fmtHundredths n ++ "%" := by
  rw [pyFmtCell, hx, roundHalfEven_intCast]

lemma specFmtCell_eval (x : ℚ) (n : ℤ) (hx : x * 100 * 100 = (n : ℚ)) :
    specFmtCell x
      = toString (n / 100) ++ "."
        ++ (if n % 100 < 10 then "0" ++ toString (n % 100) else toString (n % 100))
        ++ "%" := by
  rw [specFmtCell, hx, roundHalfEven_intCast]

lemma label_stats_of_crosstabOk (df : List Row) (h : crosstabOk df = true) :
    label_stats df
      = ([RptLine.counts (countsReport df),
          RptLine.table (fmtPctTable (percentTable df)),
          RptLine.dup (dupCheckMsg df)], false) := by
  rw [label_stats, if_pos h]

/-- C7 (amended): when the percentage table is printed at all, its columns are
ordered `[1, -1, 0]` and every cell — `Total` row included — is the string
`str(round(fraction * 100, 2)) + "%"`, i.e. the percentage rounded to two
decimals but rendered by Python's float `repr`, which drops trailing zeros
(`"50.0%"` rather than `"50.00%"`). -/
theorem C7_table_cells (df : List Row) (h : crosstabOk df = true) :
    (label_stats df).1
      = [RptLine.counts (countsReport df),
         RptLine.table
           { cols := [1, -1, 0]
             rows := (sourcesSorted df).map
               (fun s => (s, [pyFmtCell (frac df s 1), pyFmtCell (frac df s (-1)),
                              pyFmtCell (frac df s 0)]))
             totalRow := [pyFmtCell (colSum df 1 / 3), pyFmtCell (colSum df (-1) / 3),
                          pyFmtCell (colSum df 0 / 3)] },
         RptLine.dup (dupCheckMsg df)] := by
  have hrows : (percentTable df).rows.map (fun p => (p.1, p.2.map pyFmtCell))
      = (sourcesSorted df).map
          (fun s => (s, [pyFmtCell (frac df s 1), pyFmtCell (frac df s (-1)),
                         pyFmtCell (frac df s 0)])) := by
    show ((sourcesSorted df).map
        (fun s => (s, [frac df s 1, frac df s (-1), frac df s 0]))).map
        (fun p => (p.1, p.2.map pyFmtCell)) = _
    rw [List.map_map]
    rfl
  have htot : (percentTable df).totalRow.map pyFmtCell
      = [pyFmtCell (colSum df 1 / 3), pyFmtCell (colSum df (-1) / 3),
         pyFmtCell (colSum df 0 / 3)] := by
    rw [percentTable_totalRow]
    rfl
  have htab : fmtPctTable (percentTable df)
      = { cols := [1, -1, 0]
          rows := (sourcesSorted df).map
            (fun s => (s, [pyFmtCell (frac df s 1), pyFmtCell (frac df s (-1)),
                           pyFmtCell (frac df s 0)]))
          totalRow := [pyFmtCell (colSum df 1 / 3), pyFmtCell (colSum df (-1) / 3),
                       pyFmtCell (colSum df 0 / 3)] } := by
    show FmtTable.mk (percentTable df).cols
        ((percentTable df).rows.map (fun p => (p.1, p.2.map pyFmtCell)))
        ((percentTable df).totalRow.map pyFmtCell) = _
    rw [FmtTable.mk.injEq]
    exact ⟨rfl, hrows, htot⟩
  rw [label_stats_of_crosstabOk df h]
  show [RptLine.counts (countsReport df), RptLine.table (fmtPctTable (percentTable df)),
        RptLine.dup (dupCheckMsg df)] = _
  rw [htab]

lemma sourcesSorted_exC : sourcesSorted exC = [5] := by decide

lemma percentTable_rows_exC :
    (percentTable exC).rows = [(5, [frac exC 5 1, frac exC 5 (-1), frac exC 5 0])] := by
  show (sourcesSorted exC).map
    (fun s => (s, [frac exC s 1, frac exC s (-1), frac exC s 0])) = _
  rw [sourcesSorted_exC, List.map_singleton]

lemma frac_exC_one : frac exC 5 1 = 1 / 4 := by
  rw [frac, show countSourceLabel exC 5 1 = 1 from by decide,
    show countSource exC 5 = 4 from by decide]
  norm_num

/-- C7 counterexample: on the dyadic dataset `exC` (whose fractions the float
pipeline computes exactly) the printed table is part of the report, yet its
cells differ from the spec's fixed two-decimal format: the code prints
`"25.0%"` where the spec's format gives `"25.00%"`. -/
theorem C7_counterexample :
    RptLine.table (fmtPctTable (percentTable exC)) ∈ (label_stats exC).1 ∧
    (fmtPctTable (percentTable exC)).rows
      ≠ (percentTable exC).rows.map (fun p => (p.1, p.2.map specFmtCell)) := by
  constructor
  · rw [label_stats_of_crosstabOk exC (by decide)]
    exact List.mem_cons_of_mem _ (List.mem_cons_self _ _)
  · have hcell : pyFmtCell (frac exC 5 1) = "25.0%" := by
      rw [frac_exC_one, pyFmtCell_eval (1 / 4) 2500 (by norm_num)]
      decide
    have hspec : specFmtCell (frac exC 5 1) = "25.00%" := by
      rw [frac_exC_one, specFmtCell_eval (1 / 4) 2500 (by norm_num)]
      decide
    intro heq
    rw [show (fmtPctTable (percentTable exC)).rows
        = (percentTable exC).rows.map (fun p => (p.1, p.2.map pyFmtCell)) from rfl,
      percentTable_rows_exC] at heq
    simp only [List.map_singleton, List.map_cons, List.cons.injEq, Prod.mk.injEq] at heq
    have hbad : ("25.0%" : String) = "25.00%" := by
      rw [← hcell, ← hspec]
      exact heq.1.2.1
    exact absurd hbad (by decide)

/-- C7 witness: the amended cell-format statement instantiated at `exA`. -/
theorem C7_witness :
    crosstabOk exA = true ∧
    (label_stats exA).1
      = [RptLine.counts (countsReport exA),
         RptLine.table
           { cols := [1, -1, 0]
             rows := (sourcesSorted exA).map
               (fun s => (s, [pyFmtCell (frac exA s 1), pyFmtCell (frac exA s (-1)),
                              pyFmtCell (frac exA s 0)]))
             totalRow := [pyFmtCell (colSum exA 1 / 3), pyFmtCell (colSum exA (-1) / 3),
                          pyFmtCell (colSum exA 0 / 3)] },
         RptLine.dup (dupCheckMsg exA)] :=
  ⟨by decide, C7_table_cells exA (by decide)⟩

/-- C8: each of the three analysis functions hands the dataset back to its
caller unchanged, and a second invocation on that returned dataset produces
exactly the same report or chart description as the first. -/
theorem C8_no_mutation (df : List Row) :
    (labelStatsRun df).1 = df ∧
    (labelStatsRun (labelStatsRun df).1).2 = (labelStatsRun df).2 ∧
    (featurePlotRun df).1 = df ∧
    (featurePlotRun (featurePlotRun df).1).2 = (featurePlotRun df).2 ∧
    (labelPlotRun df).1 = df ∧
    (labelPlotRun (labelPlotRun df).1).2 = (labelPlotRun df).2 :=
  ⟨rfl, rfl, rfl, rfl, rfl, rfl⟩

/-- C9: when one of the label values 1, -1, 0 occurs in no row (in particular
on the empty dataset), `label_stats` prints the per-image pixel counts and
then dies with the `KeyError` of the crosstab column selection: neither the
percentage table nor the duplicate check appears in the report. -/
theorem C9_missing_label (df : List Row) (l : Int)
    (hl : l = 1 ∨ l = -1 ∨ l = 0) (hmiss : ∀ r ∈ df, r.label ≠ l) :
    label_stats df = ([RptLine.counts (countsReport df)], true) := by
  have hfalse : hasLabel df l = false := by
    rw [hasLabel, List.any_eq_false]
    intro r hr
    simpa using hmiss r hr
  have hc : crosstabOk df = false := by
    rcases hl with rfl | rfl | rfl <;> simp [crosstabOk, hfalse]
  rw [label_stats, if_neg (by simp [hc])]

/-- C9 witness: the empty dataset misses the label 1 and `label_stats` on it
is the counts report followed by the `KeyError`. -/
theorem C9_witness :
    ((1 : Int) = 1 ∨ (1 : Int) = -1 ∨ (1 : Int) = 0) ∧
    (∀ r ∈ ([] : List Row), r.label ≠ 1) ∧
    label_stats [] = ([RptLine.counts (countsReport [])], true) :=
  ⟨Or.inl rfl, by simp, C9_missing_label [] 1 (Or.inl rfl) (by simp)⟩
